import Mathlib

/-!
Verification of the priority protocol decorator of `src/ucp/proto/proto_priority.c`
and its declaration macro (`UCP_PRIORITY_PROTO_DECL`) against the specification of
performance-driven lane selection.

The C functions `ucp_proto_priority_init_priv`, `ucp_proto_priority_init` and
`ucp_proto_priority_query` are shallowly embedded below.  External collaborators
(`ucp_proto_common_find_lanes`, `ucp_proto_common_get_lane_perf`,
`ucp_proto_common_reg_md_map`, `ucp_proto_common_init_caps`,
`ucp_proto_common_init_check_err_handling`) are modelled as oracles supplied as
inputs of a run; attribution-node reference acquisitions and releases
(`ucp_proto_perf_node_ref` / `ucp_proto_perf_node_deref`) are counted explicitly
in the run result.
-/

deriving instance DecidableEq for Except

namespace UcpProtoPriority

/-- Status codes (`ucs_status_t`): `UCS_OK`, `UCS_ERR_NO_ELEM`,
`UCS_ERR_UNSUPPORTED`; all other codes (provider or aggregator failures) are
abstracted as `errOther` with a numeric payload. -/
inductive UcsStatus where
  | ok
  | errNoElem
  | errUnsupported
  | errOther (code : Nat)
deriving DecidableEq, Repr

/-- IEEE-754 double values as far as the latency comparison at line 60 of
`proto_priority.c` can observe them: NaN, positive infinity (`INFINITY`, the
initial minimum at line 47), and finite values modelled as rationals. -/
inductive DVal where
  | nan
  | inf
  | fin (q : ℚ)
deriving DecidableEq, Repr

/-- IEEE comparison `a > b`, as used in `min_latency > lane_perf->latency`
(line 60): any comparison involving NaN is false; `+inf > finite` is true;
`+inf > +inf` is false. -/
def dgt : DVal → DVal → Bool
  | .nan, _ => false
  | _, .nan => false
  | .inf, .inf => false
  | .inf, .fin _ => true
  | .fin _, .inf => false
  | .fin a, .fin b => decide (b < a)

/-- The priv blob `ucp_proto_priority_priv_t` (proto_priority.h lines 23-28):
registration-domain map, lane map, lane count, in this order.  The leading
common header field `super` is omitted (it is likewise never written by the
code under analysis). -/
structure ucp_proto_priority_priv_t where
  reg_md_map : Nat
  lane_map   : Nat
  num_lanes  : Nat
deriving DecidableEq, Repr

/-- Per-run inputs of `ucp_proto_priority_init` / `ucp_proto_priority_init_priv`,
including the external collaborators consumed through narrow interfaces.

Modelled from the spec: the bodies of `ucp_proto_common_find_lanes` (Lane
Catalog), `ucp_proto_common_get_lane_perf` (Performance Model Provider),
`ucp_proto_common_reg_md_map` (Registration Map Builder),
`ucp_proto_common_init_caps` (Capability Aggregator) and
`ucp_proto_common_init_check_err_handling` are not under src/; each is
modelled as an oracle describing the value it returns in this run:
`findLanes` is the candidate lane list in catalog order, `getPerf` gives a
lane's latency or the provider's error, `regMdMap` maps a lane map to the
registration-domain map, `initCaps` is the aggregator's result code, and
`errHandlingOk` is the error-handling predicate's verdict.  `numPriorityLanes`
is the base init parameter `num_priority_lanes`. -/
structure Oracles where
  findLanes : List Nat
  getPerf   : Nat → Except UcsStatus DVal
  regMdMap  : Nat → Nat
  initCaps  : UcsStatus
  numPriorityLanes : Nat
  errHandlingOk : Bool

/-- Outcome of the scan loop: the loop result (`min_lat_lane_index` on success,
the provider's error otherwise), the number of provider queries issued, and the
number of attribution-node references acquired. -/
structure ScanOut where
  result   : Except UcsStatus Nat
  queries  : Nat
  acquires : Nat
deriving Repr

/-- The scan loop of `ucp_proto_priority_init_priv` (lines 49-64): for each
candidate in catalog order query the provider, abort on error, otherwise track
the running minimum latency (strict `>` comparison, line 60) and the index of
the first candidate achieving it.  `i` is the loop counter, `best` the current
`min_lat_lane_index`, `bestLat` the current `min_latency`.

Modelled from the spec: a successful `ucp_proto_common_get_lane_perf` call
acquires one reference on that candidate's attribution node (spec section 4.3,
side effects); a failed call acquires none. -/
def scanAux (gp : Nat → Except UcsStatus DVal) :
    List Nat → Nat → Nat → DVal → ScanOut
  | [], _, best, _ => { result := .ok best, queries := 0, acquires := 0 }
  | l :: rest, i, best, bestLat =>
    match gp l with
    | .error e => { result := .error e, queries := 1, acquires := 0 }
    | .ok lat =>
        let out := if dgt bestLat lat then scanAux gp rest (i + 1) i lat
                   else scanAux gp rest (i + 1) best bestLat
        { result := out.result, queries := out.queries + 1,
          acquires := out.acquires + 1 }

/-- Pure value of the scan loop on the all-queries-succeed path, with `lat`
the latency each lane's performance tuple reports: the final
`min_lat_lane_index`. -/
def minLatScanAux (lat : Nat → DVal) : List Nat → Nat → Nat → DVal → Nat
  | [], _, best, _ => best
  | l :: rest, i, best, bestLat =>
      if dgt bestLat (lat l) then minLatScanAux lat rest (i + 1) i (lat l)
      else minLatScanAux lat rest (i + 1) best bestLat

/-- Observable outcome of one run of `ucp_proto_priority_init_priv`: the
returned status, the number of provider queries, of attribution-node reference
acquisitions and releases, the number of Capability Aggregator invocations,
the final `min_lat_lane_index` (line 48/62; 0 when the loop is not reached),
the local `lane_map` computed at line 66 and the local `reg_md_map` computed
at line 67 (0 when not reached), and the caller's priv structure after the
call. -/
structure PrivRun where
  status     : UcsStatus
  queries    : Nat
  acquires   : Nat
  releases   : Nat
  aggCalls   : Nat
  sel_index  : Nat
  lane_map   : Nat
  reg_md_map : Nat
  priv       : ucp_proto_priority_priv_t
deriving Repr

/-- `ucp_proto_priority_init_priv` (proto_priority.c lines 20-82).  Control
flow mirrored from the source: empty catalog returns `UCS_ERR_NO_ELEM`
(lines 41-44) before any query; a provider failure is returned immediately
from inside the loop (lines 55-57), skipping the deref loop; otherwise the
selected lane's bit forms `lane_map` (line 66), the registration map is built
(line 67), one extra reference is taken on the selected node (line 70), the
aggregator runs (line 72), and the deref loop plus the final deref release
`num_lanes + 1` references (lines 76-79).  The function never stores to the
caller's `priv` structure.

Modelled from the spec: on success the Capability Aggregator retains one
reference on the attribution node transferred into its output graph
(spec section 3, lifecycle); `ucp_proto_common_init_caps` is not under src/. -/
def ucp_proto_priority_init_priv (o : Oracles)
    (priv0 : ucp_proto_priority_priv_t) : PrivRun :=
  if o.findLanes = [] then
    { status := .errNoElem, queries := 0, acquires := 0, releases := 0,
      aggCalls := 0, sel_index := 0, lane_map := 0, reg_md_map := 0,
      priv := priv0 }
  else
    match (scanAux o.getPerf o.findLanes 0 0 .inf).result with
    | .error e =>
      { status := e,
        queries := (scanAux o.getPerf o.findLanes 0 0 .inf).queries,
        acquires := (scanAux o.getPerf o.findLanes 0 0 .inf).acquires,
        releases := 0, aggCalls := 0, sel_index := 0, lane_map := 0,
        reg_md_map := 0, priv := priv0 }
    | .ok selIdx =>
      { status := o.initCaps,
        queries := (scanAux o.getPerf o.findLanes 0 0 .inf).queries,
        acquires := (scanAux o.getPerf o.findLanes 0 0 .inf).acquires + 1 +
          (if o.initCaps = .ok then 1 else 0),
        releases := o.findLanes.length + 1,
        aggCalls := 1,
        sel_index := selIdx,
        lane_map := 2 ^ (o.findLanes.getD selIdx 0),
        reg_md_map := o.regMdMap (2 ^ (o.findLanes.getD selIdx 0)),
        priv := priv0 }

/-- Observable outcome of one run of `ucp_proto_priority_init`: the returned
status, whether `*params->super.super.priv_size` was assigned (line 103), the
number of Lane Catalog lookups, and the counters and final priv value
propagated from `ucp_proto_priority_init_priv`. -/
structure InitRun where
  status       : UcsStatus
  sizeWritten  : Bool
  catalogCalls : Nat
  queries      : Nat
  acquires     : Nat
  releases     : Nat
  aggCalls     : Nat
  priv         : ucp_proto_priority_priv_t
deriving Repr

/-- `ucp_proto_priority_init` (proto_priority.c lines 84-105): the
error-handling check first (lines 89-91), then the zero-priority-lanes bypass
(lines 93-96), then `ucp_proto_priority_init_priv`; the size field is written
(with `sizeof(ucp_proto_priority_priv_t)`, a layout constant not modelled)
exactly when that call succeeds (lines 99-103). -/
def ucp_proto_priority_init (o : Oracles)
    (priv0 : ucp_proto_priority_priv_t) : InitRun :=
  if o.errHandlingOk = false then
    { status := .errUnsupported, sizeWritten := false, catalogCalls := 0,
      queries := 0, acquires := 0, releases := 0, aggCalls := 0, priv := priv0 }
  else if o.numPriorityLanes = 0 then
    { status := .ok, sizeWritten := false, catalogCalls := 0,
      queries := 0, acquires := 0, releases := 0, aggCalls := 0, priv := priv0 }
  else
    { status := (ucp_proto_priority_init_priv o priv0).status,
      sizeWritten := decide ((ucp_proto_priority_init_priv o priv0).status = .ok),
      catalogCalls := 1,
      queries := (ucp_proto_priority_init_priv o priv0).queries,
      acquires := (ucp_proto_priority_init_priv o priv0).acquires,
      releases := (ucp_proto_priority_init_priv o priv0).releases,
      aggCalls := (ucp_proto_priority_init_priv o priv0).aggCalls,
      priv := (ucp_proto_priority_init_priv o priv0).priv }

/-- `ucp_proto_priority_query` (proto_priority.c lines 107-110): empty body,
the attribute record is left untouched. -/
def ucp_proto_priority_query (_params : Nat) (attr : Nat) : Nat := attr

/-- Protocol Descriptor `ucp_proto_t`: name, description, flags and the five
behaviors.  `init` consumes the run inputs and yields a status; `query`,
`progress`, `abort` and `reset` are abstracted as functions whose identity is
what the decorator claims are about. -/
structure ucp_proto_t where
  name     : String
  desc     : String
  flags    : Nat
  init     : Oracles → ucp_proto_priority_priv_t → UcsStatus
  query    : Nat → Nat → Nat
  progress : Nat → Nat
  abort    : Nat → Nat
  reset    : Nat → Nat

/-- The declaration macro `UCP_PRIORITY_PROTO_DECL` (lines 14-41 of the
decorator header): the decorated descriptor keeps name and description, ORs
the priority flag into `flags`, wraps `init` (base init first, then
`ucp_proto_priority_init` on success) and `query` (base query, then the no-op
`ucp_proto_priority_query`), and copies `progress`, `abort`, `reset`.

Modelled from the spec: the numeric value of `UCP_PROTO_FLAG_PRIORITY` is
declared outside src/; the spec calls it the one "has-priority-selection" bit,
modelled here as the single bit at position `prioBit`. -/
def UCP_PRIORITY_PROTO_DECL (prioBit : Nat) (proto : ucp_proto_t) :
    ucp_proto_t :=
  { name := proto.name
    desc := proto.desc
    flags := proto.flags ||| 2 ^ prioBit
    init := fun o p =>
      match proto.init o p with
      | .ok => (ucp_proto_priority_init o p).status
      | e => e
    query := fun qp a => ucp_proto_priority_query qp (proto.query qp a)
    progress := proto.progress
    abort := proto.abort
    reset := proto.reset }

/-! Concrete inputs used by witnesses and counterexamples. -/

/-- All-zero initial priv value. -/
def pZero : ucp_proto_priority_priv_t :=
  { reg_md_map := 0, lane_map := 0, num_lanes := 0 }

/-- Initial priv value with recognizable garbage in every field. -/
def pSeven : ucp_proto_priority_priv_t :=
  { reg_md_map := 7, lane_map := 7, num_lanes := 7 }

/-- Latencies of the spec scenario: 120, 45, 80 for lanes 0, 1, 2. -/
def qScenario : Nat → ℚ :=
  fun l => if l = 0 then 120 else if l = 1 then 45 else 80

/-- Run inputs of the spec scenario: candidates at catalog indices 0, 1, 2
with latencies 120, 45, 80; every query succeeds; the aggregator succeeds. -/
def oScenario : Oracles :=
  { findLanes := [0, 1, 2]
    getPerf := fun l => .ok (.fin (qScenario l))
    regMdMap := fun m => m
    initCaps := .ok
    numPriorityLanes := 1
    errHandlingOk := true }

/-- Run inputs on which the provider succeeds for lane 0 (latency 10) and
fails for lane 1 with status `errOther 5`. -/
def oLeak : Oracles :=
  { findLanes := [0, 1]
    getPerf := fun l => if l = 0 then .ok (.fin 10) else .error (.errOther 5)
    regMdMap := fun m => m
    initCaps := .ok
    numPriorityLanes := 1
    errHandlingOk := true }

/-- Run inputs with an empty Lane Catalog. -/
def oEmpty : Oracles :=
  { findLanes := []
    getPerf := fun _ => .error (.errOther 1)
    regMdMap := fun m => m
    initCaps := .ok
    numPriorityLanes := 1
    errHandlingOk := true }

/-- Run inputs with zero priority lanes requested and a failing error-handling
check. -/
def oBypassBlocked : Oracles :=
  { findLanes := [0, 1, 2]
    getPerf := fun l => .ok (.fin (qScenario l))
    regMdMap := fun m => m
    initCaps := .ok
    numPriorityLanes := 0
    errHandlingOk := false }

/-- Run inputs with zero priority lanes requested and a passing error-handling
check. -/
def oBypass : Oracles :=
  { findLanes := [0, 1, 2]
    getPerf := fun l => .ok (.fin (qScenario l))
    regMdMap := fun m => m
    initCaps := .ok
    numPriorityLanes := 0
    errHandlingOk := true }

/-- Run inputs that pass the error-handling check, request priority lanes, but
whose Lane Catalog is empty while the aggregator would report `errOther 9`. -/
def oEmptyAgg : Oracles :=
  { findLanes := []
    getPerf := fun _ => .error (.errOther 1)
    regMdMap := fun m => m
    initCaps := .errOther 9
    numPriorityLanes := 1
    errHandlingOk := true }

/-- Run inputs on which selection reaches the aggregator and the aggregator
fails with `errOther 3`. -/
def oAggFail : Oracles :=
  { findLanes := [0]
    getPerf := fun _ => .ok (.fin 10)
    regMdMap := fun m => m
    initCaps := .errOther 3
    numPriorityLanes := 1
    errHandlingOk := true }

/-- Run inputs on which every candidate's latency is positive infinity. -/
def oAllInf : Oracles :=
  { findLanes := [3, 5]
    getPerf := fun _ => .ok .inf
    regMdMap := fun m => m
    initCaps := .ok
    numPriorityLanes := 1
    errHandlingOk := true }

/-- Latencies with a tie at the minimum: 45 for every lane except lane 9,
which gets 80. -/
def qTie : Nat → ℚ := fun l => if l = 9 then 80 else 45

/-- Run inputs on which the two minimal latencies are tied (45 at catalog
indices 0 and 1, then 80). -/
def oTie : Oracles :=
  { findLanes := [4, 6, 9]
    getPerf := fun l => .ok (.fin (qTie l))
    regMdMap := fun m => m
    initCaps := .ok
    numPriorityLanes := 1
    errHandlingOk := true }

/-! Helper lemmas. -/

/-- The body of `ucp_proto_priority_init_priv` contains no store to the
caller's priv structure: every run leaves it exactly as supplied. -/
lemma init_priv_priv_unchanged (o : Oracles) (p : ucp_proto_priority_priv_t) :
    (ucp_proto_priority_init_priv o p).priv = p := by
  unfold ucp_proto_priority_init_priv
  by_cases hE : o.findLanes = []
  · simp [hE]
  · simp only [if_neg hE]
    cases hres : (scanAux o.getPerf o.findLanes 0 0 DVal.inf).result with
    | error e => rfl
    | ok k => rfl

/-- When every query on the candidate list succeeds reporting latency `lat`,
the scan equals the pure minimum scan, issuing one query and acquiring one
node reference per candidate. -/
lemma scanAux_all_ok (gp : Nat → Except UcsStatus DVal) (lat : Nat → DVal) :
    ∀ (lanes : List Nat), (∀ l ∈ lanes, gp l = Except.ok (lat l)) →
      ∀ (i best : Nat) (bestLat : DVal),
        scanAux gp lanes i best bestLat =
          { result := Except.ok (minLatScanAux lat lanes i best bestLat),
            queries := lanes.length, acquires := lanes.length } := by
  intro lanes
  induction lanes with
  | nil => intro _ i best bl; rfl
  | cons l rest ih =>
    intro h i best bl
    have hl : gp l = Except.ok (lat l) := h l (List.mem_cons_self l rest)
    have hrest : ∀ x ∈ rest, gp x = Except.ok (lat x) :=
      fun x hx => h x (List.mem_cons_of_mem l hx)
    simp only [scanAux, hl, minLatScanAux]
    by_cases hc : dgt bl (lat l)
    · simp [hc, ih hrest]
    · simp [hc, ih hrest]

/-- Characterization of the minimum scan with a finite current minimum `c`:
either no candidate improves on `c` and the accumulator index `best` is
returned, or the returned index is `i + k` where `k` is the first position
achieving the minimum latency of the list, which is below `c`. -/
lemma minLatScanAux_fin_spec (lat : Nat → DVal) (q : Nat → ℚ) :
    ∀ (lanes : List Nat), (∀ l ∈ lanes, lat l = DVal.fin (q l)) →
      ∀ (i best : Nat) (c : ℚ),
        (minLatScanAux lat lanes i best (DVal.fin c) = best ∧
          ∀ j, j < lanes.length → c ≤ q (lanes.getD j 0)) ∨
        (∃ k, k < lanes.length ∧
          minLatScanAux lat lanes i best (DVal.fin c) = i + k ∧
          q (lanes.getD k 0) < c ∧
          (∀ j, j < lanes.length → q (lanes.getD k 0) ≤ q (lanes.getD j 0)) ∧
          (∀ m, m < k → q (lanes.getD k 0) < q (lanes.getD m 0))) := by
  intro lanes
  induction lanes with
  | nil =>
    intro _ i best c
    left
    exact ⟨rfl, fun j hj => absurd hj (Nat.not_lt_zero j)⟩
  | cons l rest ih =>
    intro h i best c
    have hl : lat l = DVal.fin (q l) := h l (List.mem_cons_self l rest)
    have hrest : ∀ x ∈ rest, lat x = DVal.fin (q x) :=
      fun x hx => h x (List.mem_cons_of_mem l hx)
    by_cases hlt : q l < c
    · have hstep : minLatScanAux lat (l :: rest) i best (DVal.fin c) =
          minLatScanAux lat rest (i + 1) i (DVal.fin (q l)) := by
        simp [minLatScanAux, hl, dgt, hlt]
      rcases ih hrest (i + 1) i (q l) with
        ⟨he, hall⟩ | ⟨k, hk, he, hklt, hmin, hfirst⟩
      · right
        refine ⟨0, Nat.succ_pos _, ?_, ?_, ?_, ?_⟩
        · rw [hstep, he, Nat.add_zero]
        · simpa using hlt
        · intro j hj
          cases j with
          | zero => simp
          | succ j' => simpa using hall j' (Nat.lt_of_succ_lt_succ hj)
        · intro m hm; exact absurd hm (Nat.not_lt_zero m)
      · right
        refine ⟨k + 1, Nat.succ_lt_succ hk, ?_, ?_, ?_, ?_⟩
        · rw [hstep, he]; omega
        · simpa using lt_trans hklt hlt
        · intro j hj
          cases j with
          | zero => simpa using le_of_lt hklt
          | succ j' => simpa using hmin j' (Nat.lt_of_succ_lt_succ hj)
        · intro m hm
          cases m with
          | zero => simpa using hklt
          | succ m' => simpa using hfirst m' (Nat.lt_of_succ_lt_succ hm)
    · have hstep : minLatScanAux lat (l :: rest) i best (DVal.fin c) =
          minLatScanAux lat rest (i + 1) best (DVal.fin c) := by
        simp [minLatScanAux, hl, dgt, hlt]
      rcases ih hrest (i + 1) best c with
        ⟨he, hall⟩ | ⟨k, hk, he, hklt, hmin, hfirst⟩
      · left
        refine ⟨by rw [hstep, he], ?_⟩
        intro j hj
        cases j with
        | zero => simpa using le_of_not_lt hlt
        | succ j' => simpa using hall j' (Nat.lt_of_succ_lt_succ hj)
      · right
        refine ⟨k + 1, Nat.succ_lt_succ hk, ?_, ?_, ?_, ?_⟩
        · rw [hstep, he]; omega
        · simpa using hklt
        · intro j hj
          cases j with
          | zero =>
            simpa using le_of_lt (lt_of_lt_of_le hklt (le_of_not_lt hlt))
          | succ j' => simpa using hmin j' (Nat.lt_of_succ_lt_succ hj)
        · intro m hm
          cases m with
          | zero => simpa using lt_of_lt_of_le hklt (le_of_not_lt hlt)
          | succ m' => simpa using hfirst m' (Nat.lt_of_succ_lt_succ hm)

/-- Argmin property of the full scan: for a non-empty candidate list with
finite latencies, the final `min_lat_lane_index` is in range, achieves the
minimum latency, and is strictly below every earlier candidate's latency
(a tie keeps the earliest index). -/
lemma minLatScanAux_top (lat : Nat → DVal) (q : Nat → ℚ)
    (lanes : List Nat) (h : ∀ l ∈ lanes, lat l = DVal.fin (q l))
    (hne : lanes ≠ []) :
    minLatScanAux lat lanes 0 0 DVal.inf < lanes.length ∧
    (∀ j, j < lanes.length →
      q (lanes.getD (minLatScanAux lat lanes 0 0 DVal.inf) 0) ≤
        q (lanes.getD j 0)) ∧
    (∀ m, m < minLatScanAux lat lanes 0 0 DVal.inf →
      q (lanes.getD (minLatScanAux lat lanes 0 0 DVal.inf) 0) <
        q (lanes.getD m 0)) := by
  cases lanes with
  | nil => exact absurd rfl hne
  | cons l rest =>
    have hl : lat l = DVal.fin (q l) := h l (List.mem_cons_self l rest)
    have hrest : ∀ x ∈ rest, lat x = DVal.fin (q x) :=
      fun x hx => h x (List.mem_cons_of_mem l hx)
    have hstep : minLatScanAux lat (l :: rest) 0 0 DVal.inf =
        minLatScanAux lat rest 1 0 (DVal.fin (q l)) := by
      simp [minLatScanAux, hl, dgt]
    rcases minLatScanAux_fin_spec lat q rest hrest 1 0 (q l) with
      ⟨he, hall⟩ | ⟨k, hk, he, hklt, hmin, hfirst⟩
    · rw [hstep, he]
      refine ⟨Nat.succ_pos _, ?_, ?_⟩
      · intro j hj
        cases j with
        | zero => simp
        | succ j' => simpa using hall j' (Nat.lt_of_succ_lt_succ hj)
      · intro m hm; exact absurd hm (Nat.not_lt_zero m)
    · have hidx : (1 : Nat) + k = k + 1 := Nat.add_comm 1 k
      rw [hstep, he, hidx]
      refine ⟨Nat.succ_lt_succ hk, ?_, ?_⟩
      · intro j hj
        cases j with
        | zero => simpa using le_of_lt hklt
        | succ j' => simpa using hmin j' (Nat.lt_of_succ_lt_succ hj)
      · intro m hm
        cases m with
        | zero => simpa using hklt
        | succ m' => simpa using hfirst m' (Nat.lt_of_succ_lt_succ hm)

/-- The scan result is either the incoming accumulator index or `i + k` for
some position `k` of the list, whatever the latency values are. -/
lemma minLatScanAux_range (lat : Nat → DVal) :
    ∀ (lanes : List Nat) (i best : Nat) (bl : DVal),
      minLatScanAux lat lanes i best bl = best ∨
      ∃ k, k < lanes.length ∧ minLatScanAux lat lanes i best bl = i + k := by
  intro lanes
  induction lanes with
  | nil => intro i best bl; left; rfl
  | cons l rest ih =>
    intro i best bl
    by_cases hc : dgt bl (lat l)
    · have hstep : minLatScanAux lat (l :: rest) i best bl =
          minLatScanAux lat rest (i + 1) i (lat l) := by
        simp [minLatScanAux, hc]
      rcases ih (i + 1) i (lat l) with he | ⟨k, hk, he⟩
      · right; exact ⟨0, Nat.succ_pos _, by rw [hstep, he, Nat.add_zero]⟩
      · right; exact ⟨k + 1, Nat.succ_lt_succ hk, by rw [hstep, he]; omega⟩
    · have hstep : minLatScanAux lat (l :: rest) i best bl =
          minLatScanAux lat rest (i + 1) best bl := by
        simp [minLatScanAux, hc]
      rcases ih (i + 1) best bl with he | ⟨k, hk, he⟩
      · left; rw [hstep, he]
      · right; exact ⟨k + 1, Nat.succ_lt_succ hk, by rw [hstep, he]; omega⟩

/-- When every candidate's latency is +infinity or NaN, the strict comparison
against the +infinity starting minimum never succeeds, so the scan returns the
incoming accumulator index unchanged. -/
lemma minLatScanAux_no_update (lat : Nat → DVal) :
    ∀ (lanes : List Nat),
      (∀ l ∈ lanes, lat l = DVal.inf ∨ lat l = DVal.nan) →
      ∀ (i best : Nat), minLatScanAux lat lanes i best DVal.inf = best := by
  intro lanes
  induction lanes with
  | nil => intro _ i best; rfl
  | cons l rest ih =>
    intro h i best
    have hrest : ∀ x ∈ rest, lat x = DVal.inf ∨ lat x = DVal.nan :=
      fun x hx => h x (List.mem_cons_of_mem l hx)
    have hfalse : dgt DVal.inf (lat l) = false := by
      rcases h l (List.mem_cons_self l rest) with hl | hl <;> rw [hl] <;> rfl
    simp [minLatScanAux, hfalse, ih hrest]

/-- On a non-empty catalog where every provider query succeeds with latency
`lat`, the run of `ucp_proto_priority_init_priv` takes the full-scan path:
the selection index is the pure minimum-scan result, the lane map is the
selected lane's single bit, the status is the aggregator's code verbatim, and
`num_lanes + 1` references are acquired plus one more retained by the
aggregator exactly on success, while `num_lanes + 1` are released. -/
lemma init_priv_all_ok (o : Oracles) (p : ucp_proto_priority_priv_t)
    (lat : Nat → DVal)
    (hne : o.findLanes ≠ [])
    (hok : ∀ l ∈ o.findLanes, o.getPerf l = Except.ok (lat l)) :
    ucp_proto_priority_init_priv o p =
      { status := o.initCaps,
        queries := o.findLanes.length,
        acquires := o.findLanes.length + 1 +
          (if o.initCaps = .ok then 1 else 0),
        releases := o.findLanes.length + 1,
        aggCalls := 1,
        sel_index := minLatScanAux lat o.findLanes 0 0 DVal.inf,
        lane_map :=
          2 ^ (o.findLanes.getD (minLatScanAux lat o.findLanes 0 0 DVal.inf) 0),
        reg_md_map := o.regMdMap
          (2 ^ (o.findLanes.getD (minLatScanAux lat o.findLanes 0 0 DVal.inf) 0)),
        priv := p } := by
  have hs := scanAux_all_ok o.getPerf lat o.findLanes hok 0 0 DVal.inf
  unfold ucp_proto_priority_init_priv
  rw [if_neg hne, hs]

/-- A power of two has exactly the one bit at its exponent set. -/
lemma testBit_two_pow_iff (n b : Nat) : (2 ^ n).testBit b = true ↔ b = n := by
  constructor
  · intro hb
    by_contra hbn
    rw [Nat.testBit_two_pow_of_ne (fun hnb => hbn hnb.symm)] at hb
    exact Bool.false_ne_true hb
  · intro hb
    subst hb
    exact Nat.testBit_two_pow_self

/-! Claim theorems. -/

/-- C2 (code bug, failing-input evaluation): with candidates `[0, 1]` where
the Performance Model Provider succeeds on lane 0 (latency 10, one reference
acquired) and fails on lane 1 with `errOther 5`, `ucp_proto_priority_init_priv`
returns the provider's error immediately (line 56), skipping the deref loop:
one reference was acquired and none released, contradicting the claimed
zero-surviving-references law for failing runs. -/
theorem C2_provider_failure_leaks_reference :
    (ucp_proto_priority_init_priv oLeak pZero).status = UcsStatus.errOther 5 ∧
    (ucp_proto_priority_init_priv oLeak pZero).queries = 2 ∧
    (ucp_proto_priority_init_priv oLeak pZero).acquires = 1 ∧
    (ucp_proto_priority_init_priv oLeak pZero).releases = 0 := by
  decide

/-- C3 (code bug, failing-input evaluation): on the success scenario
(candidates `[0, 1, 2]`, latencies 120, 45, 80, aggregator succeeds) the run
returns success and computes lane map `{1}` locally, yet the caller's priv
structure is returned exactly as supplied (here with garbage value 7 in every
field), so none of the three claimed fields is written; the final conjunct
shows no run of the function ever writes the priv structure. -/
theorem C3_priv_blob_never_written :
    (ucp_proto_priority_init_priv oScenario pSeven).status = UcsStatus.ok ∧
    (ucp_proto_priority_init_priv oScenario pSeven).sel_index = 1 ∧
    (ucp_proto_priority_init_priv oScenario pSeven).lane_map = 2 ^ 1 ∧
    (ucp_proto_priority_init_priv oScenario pSeven).priv = pSeven ∧
    pSeven.lane_map ≠ 2 ^ 1 ∧
    pSeven.num_lanes ≠ 1 ∧
    pSeven.reg_md_map ≠ (ucp_proto_priority_init_priv oScenario pSeven).reg_md_map ∧
    (∀ (o : Oracles) (p : ucp_proto_priority_priv_t),
      (ucp_proto_priority_init_priv o p).priv = p) := by
  refine ⟨?_, ?_, ?_, ?_, ?_, ?_, ?_, init_priv_priv_unchanged⟩ <;> decide

/-- C5: when the Lane Catalog returns zero candidates,
`ucp_proto_priority_init_priv` fails with `UCS_ERR_NO_ELEM` before any
Performance Model Provider query; no attribution-node reference is acquired or
released, the aggregator is not called, and no priv field is written. -/
theorem C5_empty_catalog_no_elem (o : Oracles) (p : ucp_proto_priority_priv_t)
    (h : o.findLanes = []) :
    (ucp_proto_priority_init_priv o p).status = UcsStatus.errNoElem ∧
    (ucp_proto_priority_init_priv o p).queries = 0 ∧
    (ucp_proto_priority_init_priv o p).acquires = 0 ∧
    (ucp_proto_priority_init_priv o p).releases = 0 ∧
    (ucp_proto_priority_init_priv o p).aggCalls = 0 ∧
    (ucp_proto_priority_init_priv o p).priv = p := by
  simp [ucp_proto_priority_init_priv, h]

/-- Witness for C5 at the concrete empty-catalog input. -/
theorem C5_empty_catalog_no_elem_witness :
    (oEmpty.findLanes = []) ∧
    ((ucp_proto_priority_init_priv oEmpty pZero).status = UcsStatus.errNoElem ∧
     (ucp_proto_priority_init_priv oEmpty pZero).queries = 0 ∧
     (ucp_proto_priority_init_priv oEmpty pZero).acquires = 0 ∧
     (ucp_proto_priority_init_priv oEmpty pZero).releases = 0 ∧
     (ucp_proto_priority_init_priv oEmpty pZero).aggCalls = 0 ∧
     (ucp_proto_priority_init_priv oEmpty pZero).priv = pZero) :=
  ⟨rfl, C5_empty_catalog_no_elem oEmpty pZero rfl⟩

/-- C6 (counterexample): an input with zero priority lanes requested on which
the error-handling predicate fails makes `ucp_proto_priority_init` return
`UCS_ERR_UNSUPPORTED`, not success: the error-handling check (line 89)
precedes the zero-priority-lanes bypass (line 93). -/
theorem C6_counterexample_err_check_precedes_bypass :
    oBypassBlocked.numPriorityLanes = 0 ∧
    (ucp_proto_priority_init oBypassBlocked pZero).status =
      UcsStatus.errUnsupported ∧
    (ucp_proto_priority_init oBypassBlocked pZero).status ≠ UcsStatus.ok := by
  decide

/-- C6 (amended): for every input that passes the error-handling check and
requests zero priority lanes, `ucp_proto_priority_init` returns success
immediately: no catalog lookup, no provider query, no reference acquisition or
release, no size write, and the priv structure untouched. -/
theorem C6_bypass_zero_priority_lanes (o : Oracles)
    (p : ucp_proto_priority_priv_t)
    (herr : o.errHandlingOk = true) (hz : o.numPriorityLanes = 0) :
    (ucp_proto_priority_init o p).status = UcsStatus.ok ∧
    (ucp_proto_priority_init o p).sizeWritten = false ∧
    (ucp_proto_priority_init o p).catalogCalls = 0 ∧
    (ucp_proto_priority_init o p).queries = 0 ∧
    (ucp_proto_priority_init o p).acquires = 0 ∧
    (ucp_proto_priority_init o p).releases = 0 ∧
    (ucp_proto_priority_init o p).aggCalls = 0 ∧
    (ucp_proto_priority_init o p).priv = p := by
  simp [ucp_proto_priority_init, herr, hz]

/-- Witness for the amended C6 at a concrete bypass input. -/
theorem C6_bypass_zero_priority_lanes_witness :
    (oBypass.errHandlingOk = true) ∧ (oBypass.numPriorityLanes = 0) ∧
    ((ucp_proto_priority_init oBypass pZero).status = UcsStatus.ok ∧
     (ucp_proto_priority_init oBypass pZero).sizeWritten = false ∧
     (ucp_proto_priority_init oBypass pZero).catalogCalls = 0 ∧
     (ucp_proto_priority_init oBypass pZero).queries = 0 ∧
     (ucp_proto_priority_init oBypass pZero).acquires = 0 ∧
     (ucp_proto_priority_init oBypass pZero).releases = 0 ∧
     (ucp_proto_priority_init oBypass pZero).aggCalls = 0 ∧
     (ucp_proto_priority_init oBypass pZero).priv = pZero) :=
  ⟨rfl, rfl, C6_bypass_zero_priority_lanes oBypass pZero rfl rfl⟩

/-- C7: when the error-handling predicate reports the base protocol's
requirements unsatisfiable, `ucp_proto_priority_init` fails with
`UCS_ERR_UNSUPPORTED` and performs no catalog lookup, no provider query, no
reference acquisition, no aggregator call, and no write at all. -/
theorem C7_err_handling_unsupported (o : Oracles)
    (p : ucp_proto_priority_priv_t) (h : o.errHandlingOk = false) :
    (ucp_proto_priority_init o p).status = UcsStatus.errUnsupported ∧
    (ucp_proto_priority_init o p).sizeWritten = false ∧
    (ucp_proto_priority_init o p).catalogCalls = 0 ∧
    (ucp_proto_priority_init o p).queries = 0 ∧
    (ucp_proto_priority_init o p).acquires = 0 ∧
    (ucp_proto_priority_init o p).releases = 0 ∧
    (ucp_proto_priority_init o p).aggCalls = 0 ∧
    (ucp_proto_priority_init o p).priv = p := by
  simp [ucp_proto_priority_init, h]

/-- Witness for C7 at a concrete input failing the error-handling check. -/
theorem C7_err_handling_unsupported_witness :
    (oBypassBlocked.errHandlingOk = false) ∧
    ((ucp_proto_priority_init oBypassBlocked pZero).status =
        UcsStatus.errUnsupported ∧
     (ucp_proto_priority_init oBypassBlocked pZero).sizeWritten = false ∧
     (ucp_proto_priority_init oBypassBlocked pZero).catalogCalls = 0 ∧
     (ucp_proto_priority_init oBypassBlocked pZero).queries = 0 ∧
     (ucp_proto_priority_init oBypassBlocked pZero).acquires = 0 ∧
     (ucp_proto_priority_init oBypassBlocked pZero).releases = 0 ∧
     (ucp_proto_priority_init oBypassBlocked pZero).aggCalls = 0 ∧
     (ucp_proto_priority_init oBypassBlocked pZero).priv = pZero) :=
  ⟨rfl, C7_err_handling_unsupported oBypassBlocked pZero rfl⟩

/-- C8: for every base protocol descriptor and every position of the priority
flag bit, the decorated descriptor produced by `UCP_PRIORITY_PROTO_DECL`
keeps `progress`, `abort`, `reset`, `name` and `desc` identical to the base's,
and its flags are the base's flags with the priority bit ORed in (that bit is
set in the result); only `flags`, `init` and `query` are rebuilt. -/
theorem C8_decorator_identity (prioBit : Nat) (proto : ucp_proto_t) :
    (UCP_PRIORITY_PROTO_DECL prioBit proto).progress = proto.progress ∧
    (UCP_PRIORITY_PROTO_DECL prioBit proto).abort = proto.abort ∧
    (UCP_PRIORITY_PROTO_DECL prioBit proto).reset = proto.reset ∧
    (UCP_PRIORITY_PROTO_DECL prioBit proto).name = proto.name ∧
    (UCP_PRIORITY_PROTO_DECL prioBit proto).desc = proto.desc ∧
    (UCP_PRIORITY_PROTO_DECL prioBit proto).flags = proto.flags ||| 2 ^ prioBit ∧
    ((UCP_PRIORITY_PROTO_DECL prioBit proto).flags).testBit prioBit = true := by
  refine ⟨rfl, rfl, rfl, rfl, rfl, rfl, ?_⟩
  show (proto.flags ||| 2 ^ prioBit).testBit prioBit = true
  simp [Nat.testBit_lor, Nat.testBit_two_pow_self]

/-- C1: for every non-empty candidate lane list on which every Performance
Model Provider query succeeds with finite, pairwise-distinct latencies,
`ucp_proto_priority_init_priv` selects the index of the lane with the strictly
minimal latency, and the lane map it computes (line 66) is exactly that lane's
single bit. -/
theorem C1_selects_strict_min_latency (o : Oracles)
    (p : ucp_proto_priority_priv_t) (q : Nat → ℚ)
    (hne : o.findLanes ≠ [])
    (hok : ∀ l ∈ o.findLanes, o.getPerf l = Except.ok (DVal.fin (q l)))
    (hdist : ∀ i, i < o.findLanes.length → ∀ j, j < o.findLanes.length →
      i ≠ j → q (o.findLanes.getD i 0) ≠ q (o.findLanes.getD j 0)) :
    (ucp_proto_priority_init_priv o p).sel_index < o.findLanes.length ∧
    (∀ j, j < o.findLanes.length →
      j ≠ (ucp_proto_priority_init_priv o p).sel_index →
      q (o.findLanes.getD (ucp_proto_priority_init_priv o p).sel_index 0) <
        q (o.findLanes.getD j 0)) ∧
    (ucp_proto_priority_init_priv o p).lane_map =
      2 ^ (o.findLanes.getD (ucp_proto_priority_init_priv o p).sel_index 0) ∧
    (∀ b, ((ucp_proto_priority_init_priv o p).lane_map).testBit b = true ↔
      b = o.findLanes.getD (ucp_proto_priority_init_priv o p).sel_index 0) := by
  have hlat : ∀ l ∈ o.findLanes,
      (fun l => DVal.fin (q l)) l = DVal.fin (q l) := fun _ _ => rfl
  rw [init_priv_all_ok o p (fun l => DVal.fin (q l)) hne hok]
  obtain ⟨hlt, hmin, hfirst⟩ :=
    minLatScanAux_top (fun l => DVal.fin (q l)) q o.findLanes hlat hne
  refine ⟨hlt, ?_, rfl, ?_⟩
  · intro j hj hjne
    rcases Nat.lt_or_ge j
        (minLatScanAux (fun l => DVal.fin (q l)) o.findLanes 0 0 DVal.inf) with
      hcase | _
    · exact hfirst j hcase
    · exact lt_of_le_of_ne (hmin j hj) (hdist _ hlt j hj (fun hs => hjne hs.symm))
  · intro b
    exact testBit_two_pow_iff _ b

/-- Witness for C1 at the spec scenario: candidates at catalog indices
0, 1, 2 with latencies 120, 45, 80 yield selected index 1 and lane map
`{1} = 2`. -/
theorem C1_selects_strict_min_latency_witness :
    (oScenario.findLanes ≠ []) ∧
    (∀ l ∈ oScenario.findLanes,
      oScenario.getPerf l = Except.ok (DVal.fin (qScenario l))) ∧
    (∀ i, i < oScenario.findLanes.length →
      ∀ j, j < oScenario.findLanes.length → i ≠ j →
      qScenario (oScenario.findLanes.getD i 0) ≠
        qScenario (oScenario.findLanes.getD j 0)) ∧
    ((ucp_proto_priority_init_priv oScenario pZero).sel_index <
        oScenario.findLanes.length ∧
     (∀ j, j < oScenario.findLanes.length →
       j ≠ (ucp_proto_priority_init_priv oScenario pZero).sel_index →
       qScenario (oScenario.findLanes.getD
         (ucp_proto_priority_init_priv oScenario pZero).sel_index 0) <
         qScenario (oScenario.findLanes.getD j 0)) ∧
     (ucp_proto_priority_init_priv oScenario pZero).lane_map =
       2 ^ (oScenario.findLanes.getD
         (ucp_proto_priority_init_priv oScenario pZero).sel_index 0) ∧
     (∀ b, ((ucp_proto_priority_init_priv oScenario pZero).lane_map).testBit b
         = true ↔
       b = oScenario.findLanes.getD
         (ucp_proto_priority_init_priv oScenario pZero).sel_index 0)) ∧
    (ucp_proto_priority_init_priv oScenario pZero).sel_index = 1 ∧
    (ucp_proto_priority_init_priv oScenario pZero).lane_map = 2 := by
  have h1 : oScenario.findLanes ≠ [] := by decide
  have h2 : ∀ l ∈ oScenario.findLanes,
      oScenario.getPerf l = Except.ok (DVal.fin (qScenario l)) := by decide
  have h3 : ∀ i, i < oScenario.findLanes.length →
      ∀ j, j < oScenario.findLanes.length → i ≠ j →
      qScenario (oScenario.findLanes.getD i 0) ≠
        qScenario (oScenario.findLanes.getD j 0) := by decide
  exact ⟨h1, h2, h3,
    C1_selects_strict_min_latency oScenario pZero qScenario h1 h2 h3,
    by decide, by decide⟩

/-- C4: for every non-empty candidate lane list on which every Provider query
succeeds with finite latencies and at least two candidates tie at the minimal
latency, the selected index attains the minimal latency and is the lowest
catalog-order index among the lanes attaining it; moreover the selection is a
pure function of the catalog list and the provider's answers, hence identical
on every repeated run with the same inputs. -/
theorem C4_tie_keeps_earliest_index (o : Oracles)
    (p : ucp_proto_priority_priv_t) (q : Nat → ℚ)
    (hne : o.findLanes ≠ [])
    (hok : ∀ l ∈ o.findLanes, o.getPerf l = Except.ok (DVal.fin (q l)))
    (_htie : ∃ i j, i < o.findLanes.length ∧ j < o.findLanes.length ∧ i ≠ j ∧
      q (o.findLanes.getD i 0) = q (o.findLanes.getD j 0) ∧
      ∀ k, k < o.findLanes.length →
        q (o.findLanes.getD i 0) ≤ q (o.findLanes.getD k 0)) :
    (ucp_proto_priority_init_priv o p).sel_index < o.findLanes.length ∧
    (∀ j, j < o.findLanes.length →
      (∀ k, k < o.findLanes.length →
        q (o.findLanes.getD j 0) ≤ q (o.findLanes.getD k 0)) →
      (ucp_proto_priority_init_priv o p).sel_index ≤ j ∧
      q (o.findLanes.getD (ucp_proto_priority_init_priv o p).sel_index 0) =
        q (o.findLanes.getD j 0)) ∧
    (∀ (o' : Oracles) (p' : ucp_proto_priority_priv_t),
      o'.findLanes = o.findLanes → o'.getPerf = o.getPerf →
      (ucp_proto_priority_init_priv o' p').sel_index =
        (ucp_proto_priority_init_priv o p).sel_index) := by
  have hlat : ∀ l ∈ o.findLanes,
      (fun l => DVal.fin (q l)) l = DVal.fin (q l) := fun _ _ => rfl
  obtain ⟨hlt, hmin, hfirst⟩ :=
    minLatScanAux_top (fun l => DVal.fin (q l)) q o.findLanes hlat hne
  rw [init_priv_all_ok o p (fun l => DVal.fin (q l)) hne hok]
  refine ⟨hlt, ?_, ?_⟩
  · intro j hj hjmin
    have hle : minLatScanAux (fun l => DVal.fin (q l)) o.findLanes 0 0 DVal.inf
        ≤ j := by
      by_contra hgt
      have hjlt : j <
          minLatScanAux (fun l => DVal.fin (q l)) o.findLanes 0 0 DVal.inf :=
        Nat.lt_of_not_le hgt
      exact absurd (hjmin _ hlt) (not_le_of_lt (hfirst j hjlt))
    exact ⟨hle, le_antisymm (hmin j hj) (hjmin _ hlt)⟩
  · intro o' p' hfl hgp
    have hne' : o'.findLanes ≠ [] := by rw [hfl]; exact hne
    have hok' : ∀ l ∈ o'.findLanes,
        o'.getPerf l = Except.ok (DVal.fin (q l)) := by
      rw [hfl, hgp]; exact hok
    rw [init_priv_all_ok o' p' (fun l => DVal.fin (q l)) hne' hok']
    simp [hfl]

/-- Witness for C4: candidates `[4, 6, 9]` with latencies 45, 45, 80: the two
tied minimal candidates are at catalog indices 0 and 1, the earliest (index 0,
lane 4) is selected. -/
theorem C4_tie_keeps_earliest_index_witness :
    (oTie.findLanes ≠ []) ∧
    (∀ l ∈ oTie.findLanes, oTie.getPerf l = Except.ok (DVal.fin (qTie l))) ∧
    (∃ i j, i < oTie.findLanes.length ∧ j < oTie.findLanes.length ∧ i ≠ j ∧
      qTie (oTie.findLanes.getD i 0) = qTie (oTie.findLanes.getD j 0) ∧
      ∀ k, k < oTie.findLanes.length →
        qTie (oTie.findLanes.getD i 0) ≤ qTie (oTie.findLanes.getD k 0)) ∧
    ((ucp_proto_priority_init_priv oTie pZero).sel_index <
        oTie.findLanes.length ∧
     (∀ j, j < oTie.findLanes.length →
       (∀ k, k < oTie.findLanes.length →
         qTie (oTie.findLanes.getD j 0) ≤ qTie (oTie.findLanes.getD k 0)) →
       (ucp_proto_priority_init_priv oTie pZero).sel_index ≤ j ∧
       qTie (oTie.findLanes.getD
         (ucp_proto_priority_init_priv oTie pZero).sel_index 0) =
         qTie (oTie.findLanes.getD j 0)) ∧
     (∀ (o' : Oracles) (p' : ucp_proto_priority_priv_t),
       o'.findLanes = oTie.findLanes → o'.getPerf = oTie.getPerf →
       (ucp_proto_priority_init_priv o' p').sel_index =
         (ucp_proto_priority_init_priv oTie pZero).sel_index)) ∧
    (ucp_proto_priority_init_priv oTie pZero).sel_index = 0 ∧
    (ucp_proto_priority_init_priv oTie pZero).lane_map = 2 ^ 4 := by
  have h1 : oTie.findLanes ≠ [] := by decide
  have h2 : ∀ l ∈ oTie.findLanes,
      oTie.getPerf l = Except.ok (DVal.fin (qTie l)) := by decide
  have h3 : ∃ i j, i < oTie.findLanes.length ∧ j < oTie.findLanes.length ∧
      i ≠ j ∧ qTie (oTie.findLanes.getD i 0) = qTie (oTie.findLanes.getD j 0) ∧
      ∀ k, k < oTie.findLanes.length →
        qTie (oTie.findLanes.getD i 0) ≤ qTie (oTie.findLanes.getD k 0) :=
    ⟨0, 1, by decide, by decide, by decide, by decide, by decide⟩
  exact ⟨h1, h2, h3,
    C4_tie_keeps_earliest_index oTie pZero qTie h1 h2 h3,
    by decide, by decide⟩

/-- C9 (counterexample): an input that passes the error-handling check and
requests priority lanes but whose Lane Catalog is empty makes
`ucp_proto_priority_init` return `UCS_ERR_NO_ELEM` without ever calling the
Capability Aggregator — its result is not the Aggregator's result code (here
`errOther 9`), so the claim's scope ("priority lanes requested and the
error-handling check passes") is too wide. -/
theorem C9_counterexample_result_not_from_aggregator :
    oEmptyAgg.errHandlingOk = true ∧
    oEmptyAgg.numPriorityLanes ≠ 0 ∧
    (ucp_proto_priority_init oEmptyAgg pZero).aggCalls = 0 ∧
    (ucp_proto_priority_init oEmptyAgg pZero).status ≠ oEmptyAgg.initCaps ∧
    (ucp_proto_priority_init oEmptyAgg pZero).status = UcsStatus.errNoElem ∧
    (ucp_proto_priority_init oEmptyAgg pZero).sizeWritten = false := by
  decide

/-- C9 (amended): when lane selection runs (error-handling check passes and
priority lanes are requested), the output size field is written exactly when
the overall result is success — on any failure it is left unset — and whenever
the run reaches the Capability Aggregator (non-empty catalog, every provider
query succeeds), `ucp_proto_priority_init` returns the Aggregator's result
code verbatim, having called it exactly once. -/
theorem C9_aggregator_status_verbatim_and_size (o : Oracles)
    (p : ucp_proto_priority_priv_t)
    (herr : o.errHandlingOk = true) (hn : o.numPriorityLanes ≠ 0) :
    ((ucp_proto_priority_init o p).sizeWritten = true ↔
      (ucp_proto_priority_init o p).status = UcsStatus.ok) ∧
    (∀ lat : Nat → DVal, o.findLanes ≠ [] →
      (∀ l ∈ o.findLanes, o.getPerf l = Except.ok (lat l)) →
      (ucp_proto_priority_init o p).status = o.initCaps ∧
      (ucp_proto_priority_init o p).aggCalls = 1) := by
  have hbranch : ucp_proto_priority_init o p =
      { status := (ucp_proto_priority_init_priv o p).status,
        sizeWritten :=
          decide ((ucp_proto_priority_init_priv o p).status = .ok),
        catalogCalls := 1,
        queries := (ucp_proto_priority_init_priv o p).queries,
        acquires := (ucp_proto_priority_init_priv o p).acquires,
        releases := (ucp_proto_priority_init_priv o p).releases,
        aggCalls := (ucp_proto_priority_init_priv o p).aggCalls,
        priv := (ucp_proto_priority_init_priv o p).priv } := by
    unfold ucp_proto_priority_init
    rw [herr]
    simp [hn]
  rw [hbranch]
  constructor
  · simp
  · intro lat hne hok
    rw [init_priv_all_ok o p lat hne hok]
    exact ⟨rfl, rfl⟩

/-- Witness for the amended C9 at a concrete input on which the Aggregator
fails with `errOther 3`: that code is returned verbatim and the size field is
left unset. -/
theorem C9_aggregator_status_verbatim_and_size_witness :
    (oAggFail.errHandlingOk = true) ∧ (oAggFail.numPriorityLanes ≠ 0) ∧
    (((ucp_proto_priority_init oAggFail pZero).sizeWritten = true ↔
       (ucp_proto_priority_init oAggFail pZero).status = UcsStatus.ok) ∧
     (∀ lat : Nat → DVal, oAggFail.findLanes ≠ [] →
       (∀ l ∈ oAggFail.findLanes, oAggFail.getPerf l = Except.ok (lat l)) →
       (ucp_proto_priority_init oAggFail pZero).status = oAggFail.initCaps ∧
       (ucp_proto_priority_init oAggFail pZero).aggCalls = 1)) ∧
    (ucp_proto_priority_init oAggFail pZero).status = UcsStatus.errOther 3 ∧
    (ucp_proto_priority_init oAggFail pZero).sizeWritten = false :=
  ⟨rfl, by decide,
    C9_aggregator_status_verbatim_and_size oAggFail pZero rfl (by decide),
    by decide, by decide⟩

/-- C10: for every non-empty candidate lane list on which every Provider query
succeeds, exactly one candidate is selected: the selection index is in range
and the lane map is the single bit of the selected lane; and when no latency
is strictly below the +infinity starting minimum (every candidate's latency is
+infinity or NaN, so the IEEE `>` comparison never succeeds), the running
minimum index keeps its initial value 0 and the candidate at catalog index 0
is selected. -/
theorem C10_single_lane_and_default_index_zero (o : Oracles)
    (p : ucp_proto_priority_priv_t) (lat : Nat → DVal)
    (hne : o.findLanes ≠ [])
    (hok : ∀ l ∈ o.findLanes, o.getPerf l = Except.ok (lat l)) :
    (ucp_proto_priority_init_priv o p).sel_index < o.findLanes.length ∧
    (ucp_proto_priority_init_priv o p).lane_map =
      2 ^ (o.findLanes.getD (ucp_proto_priority_init_priv o p).sel_index 0) ∧
    (∀ b, ((ucp_proto_priority_init_priv o p).lane_map).testBit b = true ↔
      b = o.findLanes.getD (ucp_proto_priority_init_priv o p).sel_index 0) ∧
    ((∀ l ∈ o.findLanes, lat l = DVal.inf ∨ lat l = DVal.nan) →
      (ucp_proto_priority_init_priv o p).sel_index = 0 ∧
      (ucp_proto_priority_init_priv o p).lane_map =
        2 ^ (o.findLanes.getD 0 0)) := by
  rw [init_priv_all_ok o p lat hne hok]
  refine ⟨?_, rfl, ?_, ?_⟩
  · rcases minLatScanAux_range lat o.findLanes 0 0 DVal.inf with he | ⟨k, hk, he⟩
    · rw [he]; exact List.length_pos.mpr hne
    · rw [he]; simpa using hk
  · intro b
    exact testBit_two_pow_iff _ b
  · intro hinfnan
    rw [minLatScanAux_no_update lat o.findLanes hinfnan 0 0]
    exact ⟨rfl, rfl⟩

/-- Witness for C10 at a concrete input on which every latency is +infinity:
with candidates `[3, 5]`, the candidate at catalog index 0 (lane 3) is
selected and the lane map is `2 ^ 3`. -/
theorem C10_single_lane_and_default_index_zero_witness :
    (oAllInf.findLanes ≠ []) ∧
    (∀ l ∈ oAllInf.findLanes,
      oAllInf.getPerf l = Except.ok ((fun _ => DVal.inf) l)) ∧
    ((ucp_proto_priority_init_priv oAllInf pZero).sel_index <
        oAllInf.findLanes.length ∧
     (ucp_proto_priority_init_priv oAllInf pZero).lane_map =
       2 ^ (oAllInf.findLanes.getD
         (ucp_proto_priority_init_priv oAllInf pZero).sel_index 0) ∧
     (∀ b, ((ucp_proto_priority_init_priv oAllInf pZero).lane_map).testBit b
         = true ↔
       b = oAllInf.findLanes.getD
         (ucp_proto_priority_init_priv oAllInf pZero).sel_index 0) ∧
     ((∀ l ∈ oAllInf.findLanes,
         (fun _ => DVal.inf) l = DVal.inf ∨ (fun _ => DVal.inf) l = DVal.nan) →
       (ucp_proto_priority_init_priv oAllInf pZero).sel_index = 0 ∧
       (ucp_proto_priority_init_priv oAllInf pZero).lane_map =
         2 ^ (oAllInf.findLanes.getD 0 0))) ∧
    (ucp_proto_priority_init_priv oAllInf pZero).sel_index = 0 ∧
    (ucp_proto_priority_init_priv oAllInf pZero).lane_map = 8 :=
  ⟨by decide, by decide,
    C10_single_lane_and_default_index_zero oAllInf pZero (fun _ => DVal.inf)
      (by decide) (by decide),
    by decide, by decide⟩

end UcpProtoPriority
